import Mathlib

/-!
Shallow embedding of the orchestration core of the `imagepost` repository
(the multi-agent summary/learning pipelines) together with proofs about it.

The embedding covers:
* the text cleaner `strip_reasoning_tokens` shared by `summary_agent.py`
  and `learning_agent.py` (regex substitutions modelled character by
  character, with the same scan-left-to-right non-overlapping semantics
  as Python's `re.sub`);
* the confidence-score extraction of the Type 2 Challenger stage
  (`re.search(r'Score:\s*(\d+)/10', ...)`);
* the four-stage linear summary pipeline of `summary_agent.py`;
* the cyclic learning pipeline of `learning_agent.py` (planner, writer,
  designer, iterator, integrator) including the planner fallback
  curriculum and the designer's interaction with
  `VeniceImageGenerator.generate_image` of `image_generator.py`;
* the retry loop of `VeniceSummarizer._call_venice_api` in
  `summarizer.py`.

Model-endpoint interactions are abstracted by environments that supply
the text each model call would return (the code never inspects the
prompts it sends, so prompt construction is irrelevant to the properties
proved here).  Python exception control flow is modelled with
`Option`/`Except`.  Character-level points where the model is ASCII
where Python is Unicode (`str.lower`, `\s`, `\d`, `str.isalnum`) are
noted at the definitions.
-/

/-! ### Character and string utilities -/

/-- ASCII model of Python's case folding as used by `re.IGNORECASE`
and `str.lower` (all tag names involved are pure ASCII). -/
def charLower (c : Char) : Char :=
  if 'A' ≤ c ∧ c ≤ 'Z' then Char.ofNat (c.toNat + 32) else c

/-- ASCII model of Python's whitespace class (`str.strip`, regex `\s`). -/
def isPySpace (c : Char) : Bool :=
  c = ' ' || c = '\t' || c = '\n' || c = '\x0d' || c = '\x0b' || c = '\x0c'

/-- Python's `str.strip()`: drop leading and trailing whitespace. -/
def pyStrip (s : List Char) : List Char :=
  ((s.dropWhile isPySpace).reverse.dropWhile isPySpace).reverse

/-- Case-insensitive "the pattern `pat` (given in lowercase) matches a
prefix of `s`". -/
def startsWithCI : List Char → List Char → Bool
  | [], _ => true
  | _ :: _, [] => false
  | p :: ps, c :: cs => (charLower c == p) && startsWithCI ps cs

/-- Index of the leftmost case-insensitive occurrence of `pat` in `s`. -/
def findCI (pat : List Char) : List Char → Option Nat
  | [] => if startsWithCI pat [] then some 0 else none
  | c :: cs =>
    if startsWithCI pat (c :: cs) then some 0
    else (findCI pat cs).map (· + 1)

/-- Case-sensitive prefix test (Python's `in` / `str.split` are
case-sensitive). -/
def startsWithCS : List Char → List Char → Bool
  | [], _ => true
  | _ :: _, [] => false
  | p :: ps, c :: cs => (c == p) && startsWithCS ps cs

/-- Index of the leftmost case-sensitive occurrence of `pat` in `s`. -/
def findCS (pat : List Char) : List Char → Option Nat
  | [] => if startsWithCS pat [] then some 0 else none
  | c :: cs =>
    if startsWithCS pat (c :: cs) then some 0
    else (findCS pat cs).map (· + 1)

/-- Characters of the opening tag `<name>`. -/
def openTagChars (name : List Char) : List Char := '<' :: (name ++ ['>'])

/-- Characters of the closing tag `</name>`. -/
def closeTagChars (name : List Char) : List Char := '<' :: '/' :: (name ++ ['>'])

/-- Fuelled worker for `re.sub(r'<name>.*?</name>', '', s, flags=DOTALL|IGNORECASE)`.
`re.sub` deletes, scanning left to right, each non-overlapping span from an
opening tag to the nearest following closing tag.  A span is removed only when
a closing tag exists after the opening tag; otherwise the string is returned
unchanged (no later opening tag can have a closing tag either, since that
closing tag would also follow the first opening tag).  Every recursive call
drops at least the two tags, so fuel `s.length` is always sufficient. -/
def subPairsF (name : List Char) : Nat → List Char → List Char
  | 0, s => s
  | fuel + 1, s =>
    match findCI (openTagChars name) s with
    | none => s
    | some i =>
      let rest := s.drop (i + (openTagChars name).length)
      match findCI (closeTagChars name) rest with
      | none => s
      | some j =>
        s.take i ++ subPairsF name fuel (rest.drop (j + (closeTagChars name).length))

/-- Model of `re.sub(r'<name>.*?</name>', '', s, flags=re.DOTALL | re.IGNORECASE)`. -/
def subPairs (name : List Char) (s : List Char) : List Char :=
  subPairsF name s.length s

/-- Fuelled worker for `re.sub(r'</?name>', '', s, flags=IGNORECASE)`:
walk the string left to right, deleting each (non-overlapping) occurrence of
`</name>` or `<name>`.  Each step consumes at least one character, so fuel
`s.length` is always sufficient. -/
def subStrayF (name : List Char) : Nat → List Char → List Char
  | 0, s => s
  | _ + 1, [] => []
  | fuel + 1, c :: cs =>
    if startsWithCI (closeTagChars name) (c :: cs) then
      subStrayF name fuel ((c :: cs).drop (closeTagChars name).length)
    else if startsWithCI (openTagChars name) (c :: cs) then
      subStrayF name fuel ((c :: cs).drop (openTagChars name).length)
    else
      c :: subStrayF name fuel cs

/-- Model of `re.sub(r'</?name>', '', s, flags=re.IGNORECASE)`. -/
def subStray (name : List Char) (s : List Char) : List Char :=
  subStrayF name s.length s

def thinkingName : List Char := "thinking".data

def reasoningName : List Char := "reasoning".data

def thinkName : List Char := "think".data

/-- The six substitutions of `strip_reasoning_tokens` followed by
`str.strip()`, in the source order: paired `<thinking>`, `<reasoning>`,
`<think>` blocks first, then stray opening/closing tags of the same three
names, then trim (`summary_agent.py` lines 56-72, identically
`learning_agent.py` lines 39-56). -/
def listStrip (s : List Char) : List Char :=
  pyStrip (subStray thinkName (subStray reasoningName (subStray thinkingName
    (subPairs thinkName (subPairs reasoningName (subPairs thinkingName s))))))

/-- Embedding of `strip_reasoning_tokens` of `summary_agent.py` / `learning_agent.py`:
empty input is returned unchanged (`if not content: return content`),
otherwise the tag substitutions run and the result is trimmed. -/
def strip_reasoning_tokens (s : String) : String :=
  if s = "" then s else ⟨listStrip s.data⟩

example : strip_reasoning_tokens "<think>abc</think>Hello" = "Hello" := by decide
example : strip_reasoning_tokens "<THINKING>x</THINKING> World" = "World" := by decide
example : strip_reasoning_tokens "<th</think>ink>" = "<think>" := by decide
example : strip_reasoning_tokens "<think>" = "" := by decide

/-! ### Confidence-score extraction (`summary_agent.py` lines 338-341)

`re.search(r'Score:\s*(\d+)/10', challenger_output)` followed by
`int(score_match.group(1))`, with default `5`.  `\s`/`\d` are modelled by
their ASCII classes. -/

/-- Numeric value of a run of decimal digits (Python `int` on the matched
group; arbitrary precision, no clamping). -/
def natOfDigits (ds : List Char) : Nat :=
  ds.foldl (fun a c => a * 10 + (c.toNat - 48)) 0

/-- Try to match `Score:\s*(\d+)/10` at the start of `s`, returning the
value of the digit group.  The regex is case-sensitive; `\s*` and `\d+`
are greedy, and since whitespace, digits, and `/` are disjoint classes,
the maximal runs are the only candidates. -/
def matchScoreAt (s : List Char) : Option Nat :=
  if s.take 6 = "Score:".data then
    let rest := (s.drop 6).dropWhile isPySpace
    let digits := rest.takeWhile Char.isDigit
    if digits ≠ [] ∧ (rest.drop digits.length).take 3 = "/10".data then
      some (natOfDigits digits)
    else none
  else none

/-- Model of `re.search`: leftmost position at which the score pattern matches. -/
def findScore : List Char → Option Nat
  | [] => none
  | c :: cs =>
    match matchScoreAt (c :: cs) with
    | some n => some n
    | none => findScore cs

/-- The Challenge stage's score extraction: `confidence_score = 5` unless
the pattern matches, in which case the matched digits (unclamped). -/
def extractConfidence (s : String) : Nat :=
  match findScore s.data with
  | some n => n
  | none => 5

example : extractConfidence "blah Score: 7/10 blah" = 7 := by decide
example : extractConfidence "no score here" = 5 := by decide
example : extractConfidence "Score: 0/10" = 0 := by decide
example : extractConfidence "Score: 11/10" = 11 := by decide

/-! ### The linear critical-analysis pipeline (`summary_agent.py`)

The four stages run strictly in sequence
(`reconnaissance → extraction → challenger → synthesis`, built by
`build_summary_graph`).  Each stage invokes a model and merges a state
delta; the environment below supplies the text each model call returns
(one call per stage). -/

/-- Embedding of `SummaryState` of `summary_agent.py` (the `TypedDict`), with one
typed field per entry. -/
structure SummaryState where
  article_text : String
  article_title : String
  article_url : String
  recon_output : String
  extraction_output : String
  challenger_output : String
  synthesis_output : String
  final_summary : String
  confidence_score : Nat
  infographic_prompt : String
  infographic_url : String
  is_complete : Bool
deriving DecidableEq, Repr

/-- Responses of the four model calls of one linear pipeline run. -/
structure SummaryEnv where
  reconResponse : String
  extractionResponse : String
  challengerResponse : String
  synthesisResponse : String

/-- Agent 1 (`reconnaissance_scanner`): returns the delta
`{"recon_output": cleaned response}`. -/
def reconnaissance_scanner (env : SummaryEnv) (st : SummaryState) : SummaryState :=
  { st with recon_output := strip_reasoning_tokens env.reconResponse }

/-- Agent 2 (`extraction_engine`): returns `{"extraction_output": ...}`. -/
def extraction_engine (env : SummaryEnv) (st : SummaryState) : SummaryState :=
  { st with extraction_output := strip_reasoning_tokens env.extractionResponse }

/-- Agent 3 (`type2_challenger`): cleans the response, extracts the
confidence score, and returns
`{"challenger_output": ..., "confidence_score": ...}`. -/
def type2_challenger (env : SummaryEnv) (st : SummaryState) : SummaryState :=
  let out := strip_reasoning_tokens env.challengerResponse
  { st with challenger_output := out, confidence_score := extractConfidence out }

/-- Capture group of
`re.search(r'\*\*ARTICLE KEY POINTS SUMMARY:\*\*(.*?)(?=\*\*Core Claim|\*\*---|\Z)', ..., re.DOTALL)`:
the non-greedy group stops at the first position where one of the
lookahead alternatives (or the end of the string) matches. -/
def takeUntilKPMarkers : List Char → List Char
  | [] => []
  | c :: cs =>
    if startsWithCS "**Core Claim".data (c :: cs) || startsWithCS "**---".data (c :: cs) then []
    else c :: takeUntilKPMarkers cs

/-- The `key_points_section` computation of `synthesis_composer`
(`summary_agent.py` lines 465-470): guarded by a case-sensitive
containment test, then the regex capture, then `.strip()`. -/
def extractKeyPoints (extraction_output : String) : String :=
  if (findCS "KEY POINTS SUMMARY".data extraction_output.data).isSome then
    match findCS "**ARTICLE KEY POINTS SUMMARY:**".data extraction_output.data with
    | some i =>
      ⟨pyStrip (takeUntilKPMarkers
        (extraction_output.data.drop (i + ("**ARTICLE KEY POINTS SUMMARY:**".data).length)))⟩
    | none => ""
  else ""

/-- The infographic-prompt f-string of `synthesis_composer`
(`summary_agent.py` lines 473-504). -/
def mkInfographicPrompt (title kp : String) (score : Nat) : String :=
  "Create a comprehensive watercolor-style infographic that SUMMARIZES THE ENTIRE ARTICLE CONTENT.\n\nARTICLE TITLE: "
  ++ title
  ++ "\n\nPRIMARY FOCUS (80% of the infographic): THE ARTICLE\x27S KEY POINTS AND CONTENT\nThe main purpose of this infographic is to help someone understand the FULL ARTICLE without reading it.\n\nKEY POINTS TO VISUALIZE:\n"
  ++ kp
  ++ "\n\nSECONDARY FOCUS (20% of the infographic): Small analysis section\n- Confidence Score: "
  ++ toString score
  ++ "/10\n- Brief note on source credibility\n\nVISUAL STYLE:\n- Soft pastel watercolor washes with hand-drawn aesthetic\n- Clear, readable text for each key point\n- Icons or small illustrations for each main concept\n- Organized layout with clear visual hierarchy\n- Main content area with key findings prominently displayed\n- Small corner section for the "
  ++ toString score
  ++ "/10 confidence rating\n- Muted jewel tones: sage green, dusty rose, soft gold, sky blue, lavender\n- Clean and professional but with artistic watercolor touches\n\nLAYOUT REQUIREMENTS:\n- Title at the top: \""
  ++ title
  ++ "\"\n- Main body: ALL key points from the article with visual representations\n- Each key point should have a small icon or visual element\n- Use numbered bullets or visual flow to show information hierarchy\n- Bottom corner: Small confidence gauge showing "
  ++ toString score
  ++ "/10\n\nThe infographic should allow a reader to understand the ENTIRE article\x27s content at a glance. The critical analysis is secondary."

/-- Agent 4 (`synthesis_composer`): cleans the response and returns
`{"synthesis_output": ..., "final_summary": ..., "infographic_prompt": ...,
"is_complete": True}`.  `final_summary` is the same cleaned text as
`synthesis_output`; the infographic prompt uses the key-points section
when non-empty, otherwise the first 2000 characters of the extraction
output. -/
def synthesis_composer (env : SummaryEnv) (st : SummaryState) : SummaryState :=
  let out := strip_reasoning_tokens env.synthesisResponse
  let kp := extractKeyPoints st.extraction_output
  let kpOr : String := if kp = "" then ⟨st.extraction_output.data.take 2000⟩ else kp
  { st with
    synthesis_output := out
    final_summary := out
    infographic_prompt := mkInfographicPrompt st.article_title kpOr st.confidence_score
    is_complete := true }

/-- Initial state built by `analyze_article` (`summary_agent.py`
lines 548-561): `article_title or "Untitled Article"`, defaults
everywhere else, `confidence_score = 5`, `is_complete = False`. -/
def initialSummaryState (article_text article_title article_url : String) : SummaryState :=
  { article_text := article_text
    article_title := if article_title = "" then "Untitled Article" else article_title
    article_url := article_url
    recon_output := ""
    extraction_output := ""
    challenger_output := ""
    synthesis_output := ""
    final_summary := ""
    confidence_score := 5
    infographic_prompt := ""
    infographic_url := ""
    is_complete := false }

/-- One full run of the linear pipeline (`analyze_article` /
`build_summary_graph`): the four stages in their only execution order. -/
def runSummary (env : SummaryEnv) (article_text article_title article_url : String) :
    SummaryState :=
  synthesis_composer env (type2_challenger env (extraction_engine env
    (reconnaissance_scanner env (initialSummaryState article_text article_title article_url))))

/-! ### The cyclic learning pipeline (`learning_agent.py`)

Graph (built by `build_learning_graph`):
`planner → research_write → designer → iterator →
(research_write | integrator)`, the branch chosen by `check_completion`
on `is_complete`. -/

/-- Embedding of `Chapter` of `learning_agent.py`. -/
structure Chapter where
  title : String
  description : String
  content : String
  image_prompt : String
  image_url : String
  review_content : String
deriving DecidableEq, Repr

/-- Embedding of `LearningState` of `learning_agent.py`. -/
structure LearningState where
  topic : String
  education_level : String
  curriculum : List Chapter
  current_chapter_index : Nat
  final_report : String
  is_complete : Bool
deriving DecidableEq, Repr

/-- One entry of the parsed planner JSON's `"chapters"` array:
`ch.get("title")` / `ch.get("description")` results (`none` = key
absent). -/
structure RawChapter where
  title : Option String
  description : Option String
deriving DecidableEq, Repr

/-- Chapter record built from one parsed entry (`learning_agent.py`
lines 156-164). -/
def mkChapter (rc : RawChapter) : Chapter :=
  { title := rc.title.getD "Chapter"
    description := rc.description.getD ""
    content := ""
    image_prompt := ""
    image_url := ""
    review_content := "" }

/-- The hard-coded fallback curriculum of `planner_agent`
(`learning_agent.py` lines 174-181). -/
def fallbackCurriculum (topic : String) : List Chapter :=
  [ { title := "Introduction to " ++ topic, description := "Overview of the concept",
      content := "", image_prompt := "", image_url := "", review_content := "" },
    { title := "Understanding " ++ topic, description := "Core details and mechanics",
      content := "", image_prompt := "", image_url := "", review_content := "" },
    { title := "Applying " ++ topic, description := "Summary and practical application",
      content := "", image_prompt := "", image_url := "", review_content := "" } ]

/-- The body of `planner_agent`'s `try`/`except` (lines 137-181) after the
model call: `parsed = none` models any exception raised by the JSON
extraction (markdown code-block stripping, `json.loads`, the embedded
`{...}` search, or non-dict chapter entries); `parsed = some rcs` a
successful parse of the `"chapters"` array.  An empty chapter list raises
(`"No chapters found in response"`) and is likewise answered by the
fallback curriculum. -/
def plannerProcess (topic : String) (parsed : Option (List RawChapter)) : List Chapter :=
  match parsed with
  | some rcs =>
    let chapters := rcs.map mkChapter
    if chapters.isEmpty then fallbackCurriculum topic else chapters
  | none => fallbackCurriculum topic

/-! #### The image generator (`image_generator.py`) -/

/-- The base64 alphabet. -/
def b64Alphabet : List Char :=
  "ABCDEFGHIJKLMNOPQRSTUVWXYZabcdefghijklmnopqrstuvwxyz0123456789+/".data

def b64Char (n : Nat) : Char := b64Alphabet.getD n 'A'

/-- Standard base64 encoding of a byte sequence (each byte a `Nat < 256`),
as produced by Python's `base64.b64encode(...).decode('utf-8')`. -/
def base64Encode : List Nat → List Char
  | [] => []
  | [a] => [b64Char (a / 4), b64Char (a % 4 * 16), '=', '=']
  | [a, b] => [b64Char (a / 4), b64Char (a % 4 * 16 + b / 16), b64Char (b % 16 * 4), '=']
  | a :: b :: c :: rest =>
    b64Char (a / 4) :: b64Char (a % 4 * 16 + b / 16) :: b64Char (b % 16 * 4 + c / 64)
      :: b64Char (c % 64) :: base64Encode rest

example : base64Encode [1, 2, 3] = "AQID".data := by decide

/-- Embedding of `GeneratedImage` of `image_generator.py`; `image_data` is the raw
image bytes. -/
structure GeneratedImage where
  section_title : String
  prompt : String
  image_data : List Nat
  format : String
  filename : String
deriving DecidableEq, Repr

/-- One HTTP response of the Venice image endpoint as the code observes
it: the status, and the decoded `"images"` array when the body parses
(`none` models a body whose JSON parsing or base64 decoding raises,
which the catch-all `except` turns into `None`). -/
structure ImgHttpResponse where
  status : Nat
  images : Option (List (List Nat))
deriving DecidableEq, Repr

/-- The `safe_title` / filename computation of `generate_image`
(lines 106-108): keep alphanumerics, space, `-`, `_`; replace spaces by
underscores; lowercase; truncate to 30 (ASCII model of `isalnum`/`lower`). -/
def safeTitle (t : String) : String :=
  ⟨((t.data.filter (fun c => c.isAlphanum || c = ' ' || c = '-' || c = '_')).map
      (fun c => charLower (if c = ' ' then '_' else c))).take 30⟩

/-- Python's `f"{index:02d}"`. -/
def format2 (n : Nat) : String :=
  if n < 10 then "0" ++ toString n else toString n

/-- The style-modifier table of `_enhance_prompt`
(`image_generator.py` lines 207-241); unknown styles fall back to
`"Watercolor Whimsical"`. -/
def styleModifier (style : String) : String :=
  if style = "Watercolor Whimsical" then
    "watercolor painting style, whimsical and dreamy, soft flowing colors, artistic brush strokes, ethereal and magical atmosphere, pastel color palette with gentle gradients, hand-painted aesthetic, playful and imaginative, organic shapes and forms, delicate watercolor washes, artistic illustration"
  else if style = "Infographic" then
    "infographic style, data visualization, clean modern design, icons and symbols, professional business graphics"
  else if style = "Cinematic" then
    "cinematic composition, dramatic lighting, movie poster style, atmospheric, professional photography look"
  else if style = "Digital Art" then
    "digital art, vibrant colors, creative illustration, modern artistic style, detailed rendering"
  else if style = "Minimalist" then
    "minimalist design, simple shapes, clean lines, limited color palette, elegant and sophisticated"
  else if style = "Photographic" then
    "photorealistic, high quality photography style, professional lighting, sharp details"
  else if style = "3D Model" then
    "3D rendered, isometric view, modern 3D graphics, clean materials, professional product visualization"
  else
    "watercolor painting style, whimsical and dreamy, soft flowing colors, artistic brush strokes, ethereal and magical atmosphere, pastel color palette with gentle gradients, hand-painted aesthetic, playful and imaginative, organic shapes and forms, delicate watercolor washes, artistic illustration"

/-- Embedding of `_enhance_prompt` of `image_generator.py`. -/
def enhance_prompt (prompt style : String) : String :=
  prompt ++ ". Style: " ++ styleModifier style ++ ". High quality, detailed, artistic."

/-- Value of `config.report.image_style` (`config.py` line 43), the default style
used when `generate_image` is called with `style=None`. -/
def configImageStyle : String := "Watercolor Whimsical"

/-- Embedding of `VeniceImageGenerator.generate_image` (`image_generator.py`
lines 96-163).  `resp1` is the first POST's response; on HTTP 429 the
code sleeps and retries once, so `resp2` is used instead.  Then
`raise_for_status` raises on any status ≥ 400 — the surrounding
catch-all `except` blocks turn every exception into `None` — and a
missing or empty `"images"` array also falls through to `None`.  Every
failure path returns `None`: the function never raises. -/
def generate_image (resp1 resp2 : ImgHttpResponse) (prompt section_title : String)
    (index : Nat) (style : Option String) : Option GeneratedImage :=
  let safe := safeTitle section_title
  let filename := "img_" ++ format2 index ++ "_" ++ safe ++ ".webp"
  let enhanced := enhance_prompt prompt (style.getD configImageStyle)
  let r := if resp1.status = 429 then resp2 else resp1
  if 400 ≤ r.status then none
  else
    match r.images with
    | some (b :: _) =>
      some { section_title := section_title, prompt := enhanced, image_data := b,
             format := "webp", filename := filename }
    | _ => none

/-- Embedding of `get_image_as_base64` of `image_generator.py`. -/
def get_image_as_base64 (img : GeneratedImage) : String :=
  ⟨base64Encode img.image_data⟩

/-! #### Learning-pipeline stages -/

/-- Replace the element at index `i` (identity out of range; in pipeline
runs the index is always in range — Python would raise `IndexError`
otherwise). -/
def modifyAt (f : Chapter → Chapter) : Nat → List Chapter → List Chapter
  | _, [] => []
  | 0, ch :: rest => f ch :: rest
  | n + 1, ch :: rest => ch :: modifyAt f n rest

/-- Model responses and image-endpoint responses for one cyclic pipeline
run, indexed by the chapter index current at the time of the call.
`plannerParsed` is the result of the planner's JSON extraction on its
(cleaned) model response, as in `plannerProcess`. -/
structure LearningEnv where
  plannerParsed : Option (List RawChapter)
  writerResponse : Nat → String
  designerPromptResponse : Nat → String
  imageResp1 : Nat → ImgHttpResponse
  imageResp2 : Nat → ImgHttpResponse
  reviewResponse : String

/-- Embedding of `planner_agent` (lines 90-181) at the level of its state delta:
`{"curriculum": ..., "current_chapter_index": 0}` in both the parsed and
the fallback branch. -/
def planner_agent (env : LearningEnv) (st : LearningState) : LearningState :=
  { st with curriculum := plannerProcess st.topic env.plannerParsed,
            current_chapter_index := 0 }

/-- The state update of `researcher_writer_agent` applied to a given
model response: `chapters[index]["content"] = strip_reasoning_tokens(...)`,
delta `{"curriculum": chapters}` (lines 183-242). -/
def applyWriterResponse (st : LearningState) (response : String) : LearningState :=
  match st.curriculum.get? st.current_chapter_index with
  | none => st
  | some _ =>
    { st with curriculum :=
        (modifyAt (fun ch => { ch with content := strip_reasoning_tokens response })
          st.current_chapter_index st.curriculum) }

/-- Embedding of `researcher_writer_agent` with its model call supplied by the
environment. -/
def researcher_writer_agent (env : LearningEnv) (st : LearningState) : LearningState :=
  applyWriterResponse st (env.writerResponse st.current_chapter_index)

/-- Fuelled worker for Python's `s.split("prompt:")[-1]`: the substring
after the last case-sensitive occurrence of `"prompt:"` (the whole string
when there is none).  Each step drops at least the pattern, so fuel
`s.length` is always sufficient. -/
def afterLastPromptF : Nat → List Char → List Char
  | 0, s => s
  | fuel + 1, s =>
    match findCS "prompt:".data s with
    | none => s
    | some i => afterLastPromptF fuel (s.drop (i + ("prompt:".data).length))

/-- The prompt clean-up of `designer_agent` (lines 286-289): when the
cleaned response contains `"prompt:"` case-insensitively, keep only what
follows the last case-sensitive `"prompt:"` and strip it
(`split("prompt:")[-1].strip()`); then remove one pair of surrounding
double quotes if present. -/
def cleanDesignerPrompt (p : String) : String :=
  let s := p.data
  let s1 :=
    if (findCI "prompt:".data s).isSome then pyStrip (afterLastPromptF s.length s)
    else s
  let s2 :=
    if s1.head? = some '"' && s1.getLast? = some '"' then (s1.drop 1).dropLast
    else s1
  ⟨s2⟩

/-- The call of `designer_agent` to `generate_image` (lines 292-296): prompt
from the cleaned designer-model response, the current chapter's title,
default index `0`, style `"Watercolor Whimsical"`.  `none` when the
current index is out of range (unreachable in pipeline runs). -/
def designerCallResult (env : LearningEnv) (st : LearningState) : Option GeneratedImage :=
  match st.curriculum.get? st.current_chapter_index with
  | none => none
  | some ch =>
    generate_image (env.imageResp1 st.current_chapter_index)
      (env.imageResp2 st.current_chapter_index)
      (cleanDesignerPrompt (strip_reasoning_tokens
        (env.designerPromptResponse st.current_chapter_index)))
      ch.title 0 (some "Watercolor Whimsical")

/-- Embedding of `designer_agent` (lines 244-304): when the image call yields an
image, set the current chapter's `image_url` to
`"data:image/webp;base64," + b64_img` and its `image_prompt`; otherwise
the curriculum is returned unchanged.  Both branches return normally. -/
def designer_agent (env : LearningEnv) (st : LearningState) : LearningState :=
  match st.curriculum.get? st.current_chapter_index with
  | none => st
  | some _ =>
    match designerCallResult env st with
    | some img =>
      { st with curriculum :=
          (modifyAt (fun ch => { ch with
              image_url := "data:image/webp;base64," ++ get_image_as_base64 img,
              image_prompt := cleanDesignerPrompt (strip_reasoning_tokens
                (env.designerPromptResponse st.current_chapter_index)) })
            st.current_chapter_index st.curriculum) }
    | none => st

/-- Embedding of `iterator_node` (lines 306-312): `{"current_chapter_index": index+1}`
while more chapters remain, else `{"is_complete": True}`. -/
def iterator_node (st : LearningState) : LearningState :=
  if st.current_chapter_index + 1 < st.curriculum.length then
    { st with current_chapter_index := st.current_chapter_index + 1 }
  else
    { st with is_complete := true }

/-- Embedding of `check_completion` (lines 379-382). -/
def check_completion (st : LearningState) : Bool := st.is_complete

/-- Embedding of `integrator_agent` (lines 314-355): cleaned review text stored in the
first chapter's `review_content` when both the curriculum and the review
are non-empty; `final_report` set to `"Compiled"`. -/
def integrator_agent (env : LearningEnv) (st : LearningState) : LearningState :=
  let review := strip_reasoning_tokens env.reviewResponse
  let curriculum' :=
    if st.curriculum ≠ [] ∧ review ≠ "" then
      modifyAt (fun ch => { ch with review_content := review }) 0 st.curriculum
    else st.curriculum
  { st with curriculum := curriculum', final_report := "Compiled" }

/-- One pass through the loop body of the compiled graph:
`research_write → designer → iterator`. -/
def stepChapter (env : LearningEnv) (st : LearningState) : LearningState :=
  iterator_node (designer_agent env (researcher_writer_agent env st))

/-- The graph's cycle, with fuel bounding the number of loop iterations
(`none` = fuel exhausted before the pipeline terminated).  The result
carries the final state and the number of times `research_write`,
`designer`, and `integrator` executed. -/
def runLoop (env : LearningEnv) : Nat → LearningState → Option (LearningState × Nat × Nat × Nat)
  | 0, _ => none
  | fuel + 1, st =>
    let st3 := stepChapter env st
    if check_completion st3 then
      some (integrator_agent env st3, 1, 1, 1)
    else
      match runLoop env fuel st3 with
      | none => none
      | some (stF, w, d, i) => some (stF, w + 1, d + 1, i)

/-- Initial state of `generate_learning_path` (lines 403-410). -/
def initialLearningState (topic education_level : String) : LearningState :=
  { topic := topic
    education_level := education_level
    curriculum := []
    current_chapter_index := 0
    final_report := ""
    is_complete := false }

/-- The state after the entry node `planner` of a run of
`generate_learning_path topic level`. -/
def plannedState (env : LearningEnv) (topic level : String) : LearningState :=
  planner_agent env (initialLearningState topic level)

/-! ### The Model Client retry loop (`summarizer.py` lines 660-720)

`_call_venice_api` posts up to `max_retries` times.  Per attempt:
* HTTP 429 → `await asyncio.sleep(2 ** attempt)` and `continue`;
* any status ≥ 400 → `raise_for_status` raises `HTTPStatusError`, which
  is re-raised only when `attempt == max_retries - 1` and otherwise
  retried (with no sleep);
* a success status whose body yields
  `data["choices"][0]["message"]["content"]` → return that content;
* any other exception (network error, JSON/shape error) → re-raised on
  the last attempt, otherwise retried.
If the loop finishes without returning (every attempt hit the 429
branch), the function falls through to `return ""`. -/

/-- What one HTTP attempt produces, as the code observes it:
a response with its status and (for success statuses) the extracted
content (`none` models a body whose JSON parsing or field access
raises), or a transport-level exception. -/
inductive VeniceAttempt where
  | response (status : Nat) (content : Option String)
  | netError (msg : String)

/-- An exception propagated out of `_call_venice_api`. -/
inductive CallError where
  | httpError (status : Nat)
  | otherError (msg : String)
deriving DecidableEq, Repr

/-- Result of one retry-loop level given the result `rest` of the
remaining levels: mirrors the attempt body of `_call_venice_api`.
The second component counts attempts actually made, the third records
the sleeps performed (in seconds). -/
def callStep (att : Nat → VeniceAttempt) (maxRetries attempt : Nat)
    (rest : Except CallError String × Nat × List Nat) :
    Except CallError String × Nat × List Nat :=
  match att attempt with
  | VeniceAttempt.response status content =>
    if status = 429 then
      (rest.1, rest.2.1 + 1, 2 ^ attempt :: rest.2.2)
    else if 400 ≤ status then
      if attempt = maxRetries - 1 then (Except.error (CallError.httpError status), 1, [])
      else (rest.1, rest.2.1 + 1, rest.2.2)
    else
      match content with
      | some c => (Except.ok c, 1, [])
      | none =>
        if attempt = maxRetries - 1 then
          (Except.error (CallError.otherError "response body error"), 1, [])
        else (rest.1, rest.2.1 + 1, rest.2.2)
  | VeniceAttempt.netError msg =>
    if attempt = maxRetries - 1 then (Except.error (CallError.otherError msg), 1, [])
    else (rest.1, rest.2.1 + 1, rest.2.2)

/-- The retry loop, with `fuel = maxRetries - attempt` remaining loop
iterations; falling out of the loop is `return ""`. -/
def callAux (att : Nat → VeniceAttempt) (maxRetries : Nat) : Nat → Nat →
    Except CallError String × Nat × List Nat
  | _, 0 => (Except.ok "", 0, [])
  | attempt, fuel + 1 => callStep att maxRetries attempt (callAux att maxRetries (attempt + 1) fuel)

/-- Embedding of `_call_venice_api` with a given retry ceiling (`max_retries = 3` at
every call site): the returned-or-raised result, the number of attempts
made, and the sleeps performed. -/
def call_venice_api (att : Nat → VeniceAttempt) (maxRetries : Nat) :
    Except CallError String × Nat × List Nat :=
  callAux att maxRetries 0 maxRetries

example :
    call_venice_api (fun _ => VeniceAttempt.response 429 none) 3 = (Except.ok "", 3, [1, 2, 4]) :=
  rfl
example :
    call_venice_api (fun _ => VeniceAttempt.response 500 none) 3 =
      (Except.error (CallError.httpError 500), 3, []) := rfl
example :
    call_venice_api (fun _ => VeniceAttempt.response 200 (some "hi")) 3 =
      (Except.ok "hi", 1, []) := rfl

/-! ### Model-call failures at the stage boundary (`Except` layer)

In `learning_agent.py`, every stage `await`s its model call with no
surrounding `try`: an exception raised by the call leaves the stage.  In
particular `planner_agent`'s call (line 134) sits *outside* the
`try` that begins at line 137 — only the JSON extraction is protected by
the fallback. -/

/-- An exception raised by a model client call (`ainvoke`). -/
structure ModelError where
  msg : String
deriving DecidableEq, Repr

/-- Embedding of `planner_agent` as a function of its model-call outcome: a raised
model error propagates (the call is outside the `try`); a returned
response is cleaned and parsed, with `parse` standing for the
`try`-block's JSON extraction (`none` = the extraction raises, answered
by the fallback inside `plannerProcess`). -/
def planner_stageE (topic : String) (modelResult : Except ModelError String)
    (parse : String → Option (List RawChapter)) :
    Except ModelError (List Chapter × Nat) :=
  match modelResult with
  | Except.error e => Except.error e
  | Except.ok response =>
    Except.ok (plannerProcess topic (parse (strip_reasoning_tokens response)), 0)

/-- Embedding of `researcher_writer_agent` as a function of its model-call outcome:
no `try` anywhere, so a raised model error propagates. -/
def researcher_writer_stageE (modelResult : Except ModelError String)
    (st : LearningState) : Except ModelError LearningState :=
  match modelResult with
  | Except.error e => Except.error e
  | Except.ok response => Except.ok (applyWriterResponse st response)

/-! ### Helper lemmas -/

theorem modifyAt_length (f : Chapter → Chapter) :
    ∀ (i : Nat) (l : List Chapter), (modifyAt f i l).length = l.length := by
  intro i l
  induction l generalizing i with
  | nil => cases i <;> rfl
  | cons ch rest ih =>
    cases i with
    | zero => rfl
    | succ n => simpa [modifyAt] using ih n

theorem modifyAt_get?_self (f : Chapter → Chapter) :
    ∀ (i : Nat) (l : List Chapter), (modifyAt f i l).get? i = (l.get? i).map f := by
  intro i l
  induction l generalizing i with
  | nil => cases i <;> rfl
  | cons ch rest ih =>
    cases i with
    | zero => rfl
    | succ n => simpa [modifyAt] using ih n

theorem applyWriter_idx (st : LearningState) (r : String) :
    (applyWriterResponse st r).current_chapter_index = st.current_chapter_index := by
  unfold applyWriterResponse; split <;> rfl

theorem applyWriter_len (st : LearningState) (r : String) :
    (applyWriterResponse st r).curriculum.length = st.curriculum.length := by
  unfold applyWriterResponse; split
  · rfl
  · simp [modifyAt_length]

theorem applyWriter_complete (st : LearningState) (r : String) :
    (applyWriterResponse st r).is_complete = st.is_complete := by
  unfold applyWriterResponse; split <;> rfl

theorem designer_idx (env : LearningEnv) (st : LearningState) :
    (designer_agent env st).current_chapter_index = st.current_chapter_index := by
  unfold designer_agent; split
  · rfl
  · split <;> rfl

theorem designer_len (env : LearningEnv) (st : LearningState) :
    (designer_agent env st).curriculum.length = st.curriculum.length := by
  unfold designer_agent; split
  · rfl
  · split
    · simp [modifyAt_length]
    · rfl

theorem designer_complete (env : LearningEnv) (st : LearningState) :
    (designer_agent env st).is_complete = st.is_complete := by
  unfold designer_agent; split
  · rfl
  · split <;> rfl

/-- Loop-body facts when the current chapter is the last one: the
iterator marks the run complete. -/
theorem stepChapter_last (env : LearningEnv) (st : LearningState)
    (h : st.current_chapter_index + 1 = st.curriculum.length) :
    (stepChapter env st).is_complete = true := by
  unfold stepChapter iterator_node
  set st2 := designer_agent env (researcher_writer_agent env st) with hst2
  have hidx : st2.current_chapter_index = st.current_chapter_index := by
    rw [hst2, designer_idx]; exact applyWriter_idx st _
  have hlen : st2.curriculum.length = st.curriculum.length := by
    rw [hst2, designer_len]; exact applyWriter_len st _
  rw [if_neg]
  omega

/-- Loop-body facts when more chapters remain: the index advances and
nothing else that steers the loop changes. -/
theorem stepChapter_step (env : LearningEnv) (st : LearningState)
    (h : st.current_chapter_index + 1 < st.curriculum.length) :
    (stepChapter env st).is_complete = st.is_complete ∧
    (stepChapter env st).current_chapter_index = st.current_chapter_index + 1 ∧
    (stepChapter env st).curriculum.length = st.curriculum.length := by
  unfold stepChapter iterator_node
  set st2 := designer_agent env (researcher_writer_agent env st) with hst2
  have hidx : st2.current_chapter_index = st.current_chapter_index := by
    rw [hst2, designer_idx]; exact applyWriter_idx st _
  have hlen : st2.curriculum.length = st.curriculum.length := by
    rw [hst2, designer_len]; exact applyWriter_len st _
  have hcomp : st2.is_complete = st.is_complete := by
    rw [hst2, designer_complete]; exact applyWriter_complete st _
  rw [if_pos (by omega)]
  exact ⟨hcomp, by simp [hidx], by simp [hlen]⟩

/-- With `k + 1` chapters left to process (current one included), the
loop terminates after exactly `k + 1` iterations, running the writer and
designer once per iteration and the integrator once. -/
theorem runLoop_counts : ∀ (k : Nat) (env : LearningEnv) (st : LearningState),
    st.is_complete = false →
    st.current_chapter_index + (k + 1) = st.curriculum.length →
    ∃ stF, runLoop env (k + 1) st = some (stF, k + 1, k + 1, 1) := by
  intro k
  induction k with
  | zero =>
    intro env st _ h
    refine ⟨integrator_agent env (stepChapter env st), ?_⟩
    have hc : check_completion (stepChapter env st) = true :=
      stepChapter_last env st (by omega)
    unfold runLoop
    rw [if_pos hc]
  | succ k ih =>
    intro env st hcomp h
    obtain ⟨hc, hidx, hlen⟩ := stepChapter_step env st (by omega)
    obtain ⟨stF, hF⟩ := ih env (stepChapter env st) (hc.trans hcomp)
      (by rw [hidx, hlen]; omega)
    refine ⟨stF, ?_⟩
    show runLoop env (k + 1 + 1) st = _
    unfold runLoop
    have hcf : check_completion (stepChapter env st) = false := by
      unfold check_completion; rw [hc, hcomp]
    rw [if_neg (by simp [hcf])]
    rw [hF]

/-- The planner always yields a non-empty curriculum: the parsed
chapters when non-empty, the 3-chapter fallback otherwise. -/
theorem plannerProcess_length_pos (topic : String) (parsed : Option (List RawChapter)) :
    1 ≤ (plannerProcess topic parsed).length := by
  have hfb : (fallbackCurriculum topic).length = 3 := rfl
  unfold plannerProcess
  cases parsed with
  | none =>
    show 1 ≤ (fallbackCurriculum topic).length
    omega
  | some rcs =>
    simp only []
    split
    · show 1 ≤ (fallbackCurriculum topic).length
      omega
    · rename_i hne
      simp [List.isEmpty_iff] at hne
      have := List.length_pos.mpr hne
      simpa using this

/-- Claim C5: for every curriculum run whose Plan stage produces `n`
chapters (the planner guarantees `n ≥ 1`), the cyclic loop terminates
(with fuel `n`, i.e. after exactly `n` iterations): `research_write`
and `designer` execute exactly `n` times each and `integrator` exactly
once. -/
theorem cyclic_pipeline_counts (env : LearningEnv) (topic level : String) :
    ∃ stF, runLoop env (plannedState env topic level).curriculum.length
        (plannedState env topic level) =
      some (stF, (plannedState env topic level).curriculum.length,
        (plannedState env topic level).curriculum.length, 1) := by
  have hidx : (plannedState env topic level).current_chapter_index = 0 := rfl
  have hcomp : (plannedState env topic level).is_complete = false := rfl
  have hlen : 1 ≤ (plannedState env topic level).curriculum.length :=
    plannerProcess_length_pos topic env.plannerParsed
  obtain ⟨k, hk⟩ : ∃ k, k + 1 = (plannedState env topic level).curriculum.length :=
    ⟨(plannedState env topic level).curriculum.length - 1, by omega⟩
  obtain ⟨stF, hF⟩ := runLoop_counts k env (plannedState env topic level) hcomp (by omega)
  exact ⟨stF, by rw [← hk]; exact hF⟩

/-- Claim C6: when the planner's JSON extraction fails on every attempt
(direct parse, code-block strip, embedded-object search — all modelled
by `parsed = none`), the output curriculum is the fallback: exactly 3
chapters, each with a non-empty title. -/
theorem planner_fallback_guarantee (topic : String) :
    (plannerProcess topic none).length = 3 ∧
    ∀ ch ∈ plannerProcess topic none, ch.title ≠ "" := by
  constructor
  · rfl
  · intro ch hch
    have hne : ∀ (p t : String), p.data ≠ [] → p ++ t ≠ "" := by
      intro p t hp h
      have hd := congrArg String.data h
      rw [String.data_append] at hd
      exact hp (List.append_eq_nil.mp hd).1
    simp only [plannerProcess, fallbackCurriculum, List.mem_cons, List.not_mem_nil,
      or_false] at hch
    rcases hch with h | h | h <;> rw [h] <;>
      exact hne _ topic (by decide)

/-- Witness for C6 at a concrete topic and the first fallback chapter. -/
theorem planner_fallback_guarantee_witness :
    (plannerProcess "Photosynthesis" none).length = 3 ∧
    ("Introduction to " ++ "Photosynthesis" : String) ≠ "" :=
  ⟨(planner_fallback_guarantee "Photosynthesis").1,
   (planner_fallback_guarantee "Photosynthesis").2
     { title := "Introduction to " ++ "Photosynthesis",
       description := "Overview of the concept", content := "", image_prompt := "",
       image_url := "", review_content := "" }
     (by decide)⟩

/-- A two-chapter planner parse, used to exhibit a cyclic run. -/
def env2 : LearningEnv :=
  { plannerParsed := some [{ title := some "The Big Idea", description := some "a" },
                           { title := some "Core Mechanics", description := some "b" }]
    writerResponse := fun _ => "Water cycle content."
    designerPromptResponse := fun _ => ""
    imageResp1 := fun _ => { status := 500, images := none }
    imageResp2 := fun _ => { status := 500, images := none }
    reviewResponse := "" }

/-- Counterexample to claim C7 on the cyclic pipeline: in the run of
`env2` (two planned chapters), the planner writes
`current_chapter_index = 0` and `curriculum`, yet the very next loop
iteration (later stages of the same run) changes both — the writer
rewrites the current chapter inside `curriculum` and the iterator
increments `current_chapter_index` to 1.  State is therefore not
append-only per field. -/
theorem state_not_append_only_cex :
    (plannedState env2 "Gravity" "High School").current_chapter_index = 0 ∧
    (stepChapter env2 (plannedState env2 "Gravity" "High School")).current_chapter_index = 1 ∧
    (researcher_writer_agent env2 (plannedState env2 "Gravity" "High School")).curriculum ≠
      (plannedState env2 "Gravity" "High School").curriculum := by decide

/-- Claim C7 as amended: in the *linear* critical-analysis pipeline,
state is append-only per field — once a stage writes its output field,
every later stage of the run leaves that field unchanged.  (In the
cyclic pipeline `curriculum` and `current_chapter_index` are iteratively
updated; see the counterexample.) -/
theorem linear_pipeline_append_only (env : SummaryEnv) (a t u : String) :
    let s1 := reconnaissance_scanner env (initialSummaryState a t u)
    let s2 := extraction_engine env s1
    let s3 := type2_challenger env s2
    let s4 := synthesis_composer env s3
    s2.recon_output = s1.recon_output ∧
    s3.recon_output = s1.recon_output ∧
    s4.recon_output = s1.recon_output ∧
    s3.extraction_output = s2.extraction_output ∧
    s4.extraction_output = s2.extraction_output ∧
    s4.challenger_output = s3.challenger_output ∧
    s4.confidence_score = s3.confidence_score :=
  ⟨rfl, rfl, rfl, rfl, rfl, rfl, rfl⟩

/-- Claim C8: when the Challenge stage's cleaned output contains no
`Score: X/10` pattern, the run's `confidence_score` is the neutral
default 5, and the run still completes (the remaining stage executes and
sets `is_complete`). -/
theorem confidence_default_five (env : SummaryEnv) (a t u : String)
    (h : findScore (strip_reasoning_tokens env.challengerResponse).data = none) :
    (runSummary env a t u).confidence_score = 5 ∧
    (runSummary env a t u).is_complete = true := by
  refine ⟨?_, rfl⟩
  have h1 : (runSummary env a t u).confidence_score
      = extractConfidence (strip_reasoning_tokens env.challengerResponse) := rfl
  rw [h1]
  simp [extractConfidence, h]

/-- Witness for C8: a concrete challenger response with no score token. -/
theorem confidence_default_five_witness :
    findScore (strip_reasoning_tokens
      (SummaryEnv.mk "" "" "No clear verdict was given." "").challengerResponse).data = none ∧
    (runSummary ⟨"", "", "No clear verdict was given.", ""⟩ "body" "title" "url").confidence_score = 5 ∧
    (runSummary ⟨"", "", "No clear verdict was given.", ""⟩ "body" "title" "url").is_complete = true :=
  ⟨by decide,
   (confidence_default_five ⟨"", "", "No clear verdict was given.", ""⟩ "body" "title" "url"
     (by decide)).1,
   (confidence_default_five ⟨"", "", "No clear verdict was given.", ""⟩ "body" "title" "url"
     (by decide)).2⟩

def env9 : SummaryEnv :=
  { reconResponse := ""
    extractionResponse := ""
    challengerResponse := "Confidence Calibration: Score: 0/10 given the unsupported claims."
    synthesisResponse := "" }

def env9b : SummaryEnv :=
  { reconResponse := ""
    extractionResponse := ""
    challengerResponse := "Score: 11/10 confidence, remarkably."
    synthesisResponse := "" }

/-- Counterexample to claim C9: the extraction does not clamp the
matched digits, so challenger outputs containing `Score: 0/10` or
`Score: 11/10` put 0 resp. 11 into `confidence_score` — reachable states
outside 1..10. -/
theorem confidence_out_of_range_cex :
    (runSummary env9 "body" "title" "url").confidence_score = 0 ∧
    (runSummary env9b "body" "title" "url").confidence_score = 11 ∧
    ¬(1 ≤ (runSummary env9 "body" "title" "url").confidence_score ∧
      (runSummary env9 "body" "title" "url").confidence_score ≤ 10) ∧
    ¬(1 ≤ (runSummary env9b "body" "title" "url").confidence_score ∧
      (runSummary env9b "body" "title" "url").confidence_score ≤ 10) := by decide

/-- Claim C9 as amended: in every reachable state, `confidence_score` is
a non-negative integer fully determined by the score extraction on the
Challenge stage's cleaned output — the matched digits verbatim when the
pattern occurs (unclamped, so values outside 1..10 are reachable), and
the default 5 otherwise; no later stage changes it. -/
theorem confidence_score_unclamped (env : SummaryEnv) (a t u : String) :
    (runSummary env a t u).confidence_score =
      extractConfidence (strip_reasoning_tokens env.challengerResponse) := rfl

/-- Claim C10: after the Designer stage runs on the current chapter,
that chapter's `image_url` is the data URL
`"data:image/webp;base64," ++ base64(image bytes)` when the image call
returns an image, and is still the empty string when the call returns
`None` (which `generate_image` does on every HTTP/parse failure — the
stage is a total function and never aborts the run). -/
theorem designer_image_url_spec (env : LearningEnv) (st : LearningState) (ch : Chapter)
    (h1 : st.curriculum.get? st.current_chapter_index = some ch)
    (h2 : ch.image_url = "") :
    ((designer_agent env st).curriculum.get? st.current_chapter_index).map Chapter.image_url =
      some (match designerCallResult env st with
            | some img => "data:image/webp;base64," ++ get_image_as_base64 img
            | none => "") := by
  unfold designer_agent
  rw [h1]
  cases hg : designerCallResult env st with
  | none =>
    rw [h1, Option.map_some', h2]
  | some img =>
    show (((modifyAt _ st.current_chapter_index st.curriculum).get?
        st.current_chapter_index).map Chapter.image_url) = _
    rw [modifyAt_get?_self, h1, Option.map_some', Option.map_some']

/-- Environment whose image endpoint succeeds with bytes `[1, 2, 3]`. -/
def env10 : LearningEnv :=
  { plannerParsed := none
    writerResponse := fun _ => ""
    designerPromptResponse := fun _ => ""
    imageResp1 := fun _ => { status := 200, images := some [[1, 2, 3]] }
    imageResp2 := fun _ => { status := 200, images := some [[1, 2, 3]] }
    reviewResponse := "" }

/-- A one-chapter state about to be designed. -/
def st10 : LearningState :=
  { topic := "T"
    education_level := "High School"
    curriculum := [{ title := "Ch1", description := "d", content := "",
                     image_prompt := "", image_url := "", review_content := "" }]
    current_chapter_index := 0
    final_report := ""
    is_complete := false }

/-- Witness for C10 at a concrete successful image generation. -/
theorem designer_image_url_spec_witness :
    ((designer_agent env10 st10).curriculum.get? st10.current_chapter_index).map
        Chapter.image_url =
      some (match designerCallResult env10 st10 with
            | some img => "data:image/webp;base64," ++ get_image_as_base64 img
            | none => "") :=
  designer_image_url_spec env10 st10
    { title := "Ch1", description := "d", content := "", image_prompt := "",
      image_url := "", review_content := "" }
    (by decide) rfl

/-- Counterexample to claim C1: a Model Client failure in the Planner
stage *does* propagate out of the stage — the `ainvoke` call sits
outside the `try`, so the hard-coded fallback is never reached.  The
stage's result is the propagated error, not the fallback curriculum. -/
theorem planner_model_failure_propagates_cex :
    planner_stageE "Photosynthesis" (Except.error { msg := "connection reset by peer" })
        (fun _ => none) =
      Except.error { msg := "connection reset by peer" } ∧
    planner_stageE "Photosynthesis" (Except.error { msg := "connection reset by peer" })
        (fun _ => none) ≠
      Except.ok (fallbackCurriculum "Photosynthesis", 0) :=
  ⟨rfl, fun h => Except.noConfusion h⟩

/-- Claim C1 as amended: a Model Client failure propagates unrecovered
out of *every* stage, the Planner included; the Planner's hard-coded
fallback substitutes only for failures of the JSON extraction applied to
a successfully returned response (on which the stage never fails). -/
theorem planner_model_failure_propagates (topic : String) (e : ModelError)
    (parse : String → Option (List RawChapter)) (content : String) (st : LearningState) :
    planner_stageE topic (Except.error e) parse = Except.error e ∧
    (∃ d, planner_stageE topic (Except.ok content) parse = Except.ok d) ∧
    researcher_writer_stageE (Except.error e) st = Except.error e :=
  ⟨rfl, ⟨_, rfl⟩, rfl⟩

/-- Counterexample to claim C2: when every attempt returns HTTP 429,
exactly 3 attempts are made with backoff sleeps of 1, 2, and 4 seconds —
but then the call *returns the empty string* (`return ""` after the
loop); no `RateLimitExceeded` failure is raised. -/
theorem rate_limit_returns_empty_cex :
    call_venice_api (fun _ => VeniceAttempt.response 429 (some "ignored")) 3 =
      (Except.ok "", 3, [1, 2, 4]) := rfl

/-- Claim C2 as amended: on HTTP 429 the client sleeps `2^attempt`
seconds and retries, up to the fixed ceiling of 3 attempts; when every
attempt returns 429 (whatever the bodies), exactly 3 attempts are made
(sleeping 1 s, 2 s, 4 s) and the call then returns the empty string to
the caller instead of raising. -/
theorem rate_limit_three_attempts (c : Nat → Option String) :
    call_venice_api (fun i => VeniceAttempt.response 429 (c i)) 3 =
      (Except.ok "", 3, [1, 2, 4]) := rfl

/-- Counterexample to claim C3: a non-429 HTTP error status is *not*
propagated on the first attempt — the `HTTPStatusError` is caught and
the request is retried; with a permanent 503, 3 attempts are made before
the error propagates. -/
theorem non429_retries_cex :
    call_venice_api (fun _ => VeniceAttempt.response 503 none) 3 =
      (Except.error (CallError.httpError 503), 3, []) ∧
    (call_venice_api (fun _ => VeniceAttempt.response 503 none) 3).2.1 ≠ 1 :=
  ⟨rfl, by decide⟩

/-- Claim C3 as amended: a non-429 HTTP error status is retried
immediately (no backoff sleep) up to the same 3-attempt ceiling; the
`HTTPStatusError` carrying the status is propagated only when the final
attempt also fails. -/
theorem non429_error_retried_to_ceiling (s : Nat) (c : Option String)
    (h4 : 400 ≤ s) (h9 : s ≠ 429) :
    call_venice_api (fun _ => VeniceAttempt.response s c) 3 =
      (Except.error (CallError.httpError s), 3, []) := by
  have e3 : callAux (fun _ => VeniceAttempt.response s c) 3 0 3 =
      callStep (fun _ => VeniceAttempt.response s c) 3 0
        (callAux (fun _ => VeniceAttempt.response s c) 3 1 2) := rfl
  have e2 : callAux (fun _ => VeniceAttempt.response s c) 3 1 2 =
      callStep (fun _ => VeniceAttempt.response s c) 3 1
        (callAux (fun _ => VeniceAttempt.response s c) 3 2 1) := rfl
  have e1 : callAux (fun _ => VeniceAttempt.response s c) 3 2 1 =
      callStep (fun _ => VeniceAttempt.response s c) 3 2
        (callAux (fun _ => VeniceAttempt.response s c) 3 3 0) := rfl
  show callAux (fun _ => VeniceAttempt.response s c) 3 0 3 = _
  rw [e3, e2, e1]
  simp only [callStep]
  rw [if_neg h9, if_pos h4, if_neg h9, if_pos h4, if_neg h9, if_pos h4]
  norm_num

/-- Witness for the amended C3 at a permanent HTTP 500. -/
theorem non429_error_retried_to_ceiling_witness :
    call_venice_api (fun _ => VeniceAttempt.response 500 none) 3 =
      (Except.error (CallError.httpError 500), 3, []) :=
  non429_error_retried_to_ceiling 500 none (by decide) (by decide)

/-! ### Text Cleaner idempotence analysis (claim C4) -/

theorem findCI_cons_none {pat : List Char} {c : Char} {cs : List Char}
    (h : findCI pat (c :: cs) = none) :
    startsWithCI pat (c :: cs) = false ∧ findCI pat cs = none := by
  unfold findCI at h
  cases hs : startsWithCI pat (c :: cs) with
  | false =>
    rw [hs] at h
    simp only [Bool.false_eq_true, if_false, Option.map_eq_none'] at h
    exact ⟨rfl, h⟩
  | true =>
    rw [hs] at h
    simp at h

theorem findCI_nil {pat : List Char} (hp : pat ≠ []) : findCI pat [] = none := by
  cases pat with
  | nil => exact absurd rfl hp
  | cons p ps => rfl

theorem startsWithCI_append {pat s : List Char} (t : List Char)
    (h : startsWithCI pat s = true) : startsWithCI pat (s ++ t) = true := by
  induction pat generalizing s with
  | nil => rfl
  | cons p ps ih =>
    cases s with
    | nil => simp [startsWithCI] at h
    | cons c cs =>
      rw [List.cons_append]
      unfold startsWithCI at h ⊢
      simp only [Bool.and_eq_true] at h ⊢
      exact ⟨h.1, ih h.2⟩

/-- No occurrence in `s ++ t` gives no occurrence in the front part `s`. -/
theorem findCI_none_front {pat : List Char} (hp : pat ≠ []) :
    ∀ {s t : List Char}, findCI pat (s ++ t) = none → findCI pat s = none := by
  intro s
  induction s with
  | nil => intro t _; exact findCI_nil hp
  | cons c cs ih =>
    intro t h
    rw [List.cons_append] at h
    obtain ⟨hs, hrest⟩ := findCI_cons_none h
    have hfalse : startsWithCI pat (c :: cs) = false := by
      cases hb : startsWithCI pat (c :: cs) with
      | false => rfl
      | true =>
        have hap := startsWithCI_append t hb
        rw [List.cons_append] at hap
        rw [hap] at hs
        exact absurd hs (by simp)
    unfold findCI
    rw [if_neg (by simp [hfalse])]
    rw [ih hrest]
    rfl

/-- No occurrence in `t ++ s` gives no occurrence in the tail part `s`. -/
theorem findCI_none_tail {pat : List Char} :
    ∀ {t s : List Char}, findCI pat (t ++ s) = none → findCI pat s = none := by
  intro t
  induction t with
  | nil => intro s h; simpa using h
  | cons c cs ih =>
    intro s h
    rw [List.cons_append] at h
    exact ih (findCI_cons_none h).2

theorem dropWhile_suffix_exists (p : Char → Bool) :
    ∀ l : List Char, ∃ t, t ++ l.dropWhile p = l := by
  intro l
  induction l with
  | nil => exact ⟨[], rfl⟩
  | cons c cs ih =>
    by_cases hc : p c = true
    · obtain ⟨t, ht⟩ := ih
      refine ⟨c :: t, ?_⟩
      rw [List.dropWhile_cons, if_pos hc, List.cons_append, ht]
    · refine ⟨[], ?_⟩
      rw [List.dropWhile_cons, if_neg hc, List.nil_append]

/-- The list `pyStrip s` is a front part of `s.dropWhile isPySpace`. -/
theorem pyStrip_front_exists (s : List Char) :
    ∃ t, pyStrip s ++ t = s.dropWhile isPySpace := by
  obtain ⟨w, hw⟩ := dropWhile_suffix_exists isPySpace (s.dropWhile isPySpace).reverse
  refine ⟨w.reverse, ?_⟩
  have h := congrArg List.reverse hw
  rw [List.reverse_append, List.reverse_reverse] at h
  exact h

theorem findCI_none_pyStrip {pat : List Char} (hp : pat ≠ []) {s : List Char}
    (h : findCI pat s = none) : findCI pat (pyStrip s) = none := by
  obtain ⟨t1, ht1⟩ := dropWhile_suffix_exists isPySpace s
  have h' : findCI pat (t1 ++ s.dropWhile isPySpace) = none := by rw [ht1]; exact h
  have hu : findCI pat (s.dropWhile isPySpace) = none := findCI_none_tail h'
  obtain ⟨t2, ht2⟩ := pyStrip_front_exists s
  have hu' : findCI pat (pyStrip s ++ t2) = none := by rw [ht2]; exact hu
  exact findCI_none_front hp hu'

theorem subPairsF_id {name s : List Char} (h : findCI (openTagChars name) s = none) :
    ∀ fuel, subPairsF name fuel s = s := by
  intro fuel
  cases fuel with
  | zero => rfl
  | succ k =>
    unfold subPairsF
    rw [h]

theorem subStrayF_id {name : List Char} :
    ∀ (fuel : Nat) {s : List Char}, findCI (openTagChars name) s = none →
      findCI (closeTagChars name) s = none → subStrayF name fuel s = s := by
  intro fuel
  induction fuel with
  | zero => intro s _ _; rfl
  | succ k ih =>
    intro s ho hc
    cases s with
    | nil => rfl
    | cons c cs =>
      obtain ⟨ho1, ho2⟩ := findCI_cons_none ho
      obtain ⟨hc1, hc2⟩ := findCI_cons_none hc
      unfold subStrayF
      rw [if_neg (by simp [hc1]), if_neg (by simp [ho1]), ih ho2 hc2]

/-- Predicate: `s` contains no occurrence, case-insensitively, of any of the six
tag tokens removed by the Text Cleaner. -/
def TagFree (s : List Char) : Prop :=
  findCI (openTagChars thinkingName) s = none ∧
  findCI (closeTagChars thinkingName) s = none ∧
  findCI (openTagChars reasoningName) s = none ∧
  findCI (closeTagChars reasoningName) s = none ∧
  findCI (openTagChars thinkName) s = none ∧
  findCI (closeTagChars thinkName) s = none

instance (s : List Char) : Decidable (TagFree s) := by
  unfold TagFree; infer_instance

/-- On tag-free text the six substitutions are the identity, so the
cleaner only trims. -/
theorem listStrip_tagfree {s : List Char} (h : TagFree s) : listStrip s = pyStrip s := by
  obtain ⟨h1, h2, h3, h4, h5, h6⟩ := h
  unfold listStrip subPairs subStray
  rw [subPairsF_id h1, subPairsF_id h3, subPairsF_id h5,
      subStrayF_id _ h1 h2, subStrayF_id _ h3 h4, subStrayF_id _ h5 h6]

theorem TagFree_pyStrip {s : List Char} (h : TagFree s) : TagFree (pyStrip s) := by
  obtain ⟨h1, h2, h3, h4, h5, h6⟩ := h
  refine ⟨?_, ?_, ?_, ?_, ?_, ?_⟩ <;>
    exact findCI_none_pyStrip (by simp [openTagChars, closeTagChars]) (by assumption)

theorem head?_dropWhile_false (p : Char → Bool) :
    ∀ (l : List Char) {c : Char} {r : List Char}, l.dropWhile p = c :: r → p c = false := by
  intro l
  induction l with
  | nil => intro c r h; simp at h
  | cons a as ih =>
    intro c r h
    rw [List.dropWhile_cons] at h
    by_cases ha : p a = true
    · rw [if_pos ha] at h; exact ih h
    · rw [if_neg ha] at h
      cases h
      simpa using ha

theorem dropWhile_eq_self_of_head (p : Char → Bool) (l : List Char)
    (h : ∀ c, l.head? = some c → p c = false) : l.dropWhile p = l := by
  cases l with
  | nil => rfl
  | cons c cs => rw [List.dropWhile_cons, if_neg (by simp [h c rfl])]

theorem dropWhile_idem (p : Char → Bool) (l : List Char) :
    (l.dropWhile p).dropWhile p = l.dropWhile p := by
  apply dropWhile_eq_self_of_head
  intro c hc
  cases hd : l.dropWhile p with
  | nil => rw [hd] at hc; simp at hc
  | cons a as =>
    rw [hd] at hc
    simp only [List.head?_cons, Option.some.injEq] at hc
    exact hc ▸ head?_dropWhile_false p l hd

theorem pyStrip_idem (s : List Char) : pyStrip (pyStrip s) = pyStrip s := by
  obtain ⟨t, ht⟩ := pyStrip_front_exists s
  have hA : (pyStrip s).dropWhile isPySpace = pyStrip s := by
    apply dropWhile_eq_self_of_head
    intro c hc
    cases hv : pyStrip s with
    | nil => rw [hv] at hc; simp at hc
    | cons a as =>
      rw [hv] at hc
      simp only [List.head?_cons, Option.some.injEq] at hc
      have hd : s.dropWhile isPySpace = a :: (as ++ t) := by
        rw [← ht, hv, List.cons_append]
      exact hc ▸ head?_dropWhile_false isPySpace s hd
  have hrev : (pyStrip s).reverse = ((s.dropWhile isPySpace).reverse).dropWhile isPySpace := by
    unfold pyStrip; rw [List.reverse_reverse]
  have hB : (pyStrip s).reverse.dropWhile isPySpace = (pyStrip s).reverse := by
    rw [hrev]; exact dropWhile_idem _ _
  show (((pyStrip s).dropWhile isPySpace).reverse.dropWhile isPySpace).reverse = pyStrip s
  rw [hA, hB, List.reverse_reverse]

/-- Counterexample to claim C4: the Text Cleaner is not idempotent.
Deleting the stray `</think>` from `"<th</think>ink>"` splices together a
new `<think>` token, which only a second application removes:
`strip(s) = "<think>"` but `strip(strip(s)) = ""`. -/
theorem strip_not_idempotent_cex :
    strip_reasoning_tokens "<th</think>ink>" = "<think>" ∧
    strip_reasoning_tokens (strip_reasoning_tokens "<th</think>ink>") = "" ∧
    strip_reasoning_tokens (strip_reasoning_tokens "<th</think>ink>") ≠
      strip_reasoning_tokens "<th</think>ink>" := by decide

/-- Claim C4 as amended: the Text Cleaner is idempotent on every string
containing no occurrence (case-insensitive) of the six tag tokens it
removes — there it reduces to whitespace trimming, which is idempotent.
On arbitrary strings idempotence fails, because deleting a tag can
splice together a new tag token (see the counterexample). -/
theorem strip_idempotent_tagfree (s : String) (h : TagFree s.data) :
    strip_reasoning_tokens (strip_reasoning_tokens s) = strip_reasoning_tokens s := by
  by_cases hs : s = ""
  · subst hs; rfl
  · have h1 : strip_reasoning_tokens s = ⟨listStrip s.data⟩ := by
      unfold strip_reasoning_tokens; rw [if_neg hs]
    rw [h1, listStrip_tagfree h]
    by_cases h2 : (⟨pyStrip s.data⟩ : String) = ""
    · rw [h2]; rfl
    · have h3 : TagFree (pyStrip s.data) := TagFree_pyStrip h
      unfold strip_reasoning_tokens
      rw [if_neg h2]
      show (⟨listStrip (pyStrip s.data)⟩ : String) = _
      rw [listStrip_tagfree h3, pyStrip_idem]

/-- Witness for the amended C4 on concrete tag-free text. -/
theorem strip_idempotent_tagfree_witness :
    TagFree ("  Hello, world.  ").data ∧
    strip_reasoning_tokens (strip_reasoning_tokens "  Hello, world.  ") =
      strip_reasoning_tokens "  Hello, world.  " :=
  ⟨by decide, strip_idempotent_tagfree "  Hello, world.  " (by decide)⟩
